import Mathlib

/-!
Shallow embedding of `app.py` of the voice-emotion-app repository: a
Streamlit page that uploads an audio file, re-encodes it with pydub,
runs a pretrained audio-classification pipeline on it, keeps the
results in `st.session_state.results`, and displays/exports them.

The pretrained pipeline is an external black box; an analysis run is
therefore parametrised by the pipeline's outcome: either a list of
predictions (dicts with a `label` and a `score`) or a raised exception,
modelled as `Except String (List Pred)`.  Python floats are modelled as
rationals.
-/

namespace VoiceEmotionApp

/-- A prediction dict returned by the audio-classification pipeline:
it has a `label` and a `score` key. -/
structure Pred where
  label : String
  score : ℚ
deriving Repr, DecidableEq

/-- One record of `st.session_state.results`, as built at app.py lines
60-65: the dict keys `file`, `emotion`, `confidence`, `score`, in this
insertion order. -/
structure ResultRec where
  file : String
  emotion : String
  confidence : String
  score : ℚ
deriving Repr, DecidableEq

/-- A pydub `AudioSegment`: frame rate, channel count, and the raw
sample data (opaque for our purposes). -/
structure AudioSegment where
  frame_rate : Nat
  channels : Nat
  data : List Int
deriving Repr, DecidableEq

/-- pydub `AudioSegment.set_frame_rate`. -/
def AudioSegment.set_frame_rate (a : AudioSegment) (r : Nat) : AudioSegment :=
  { a with frame_rate := r }

/-- pydub `AudioSegment.set_channels`. -/
def AudioSegment.set_channels (a : AudioSegment) (c : Nat) : AudioSegment :=
  { a with channels := c }

/-- A file written by `audio.export(tmp.name, format="wav")`: the path it
was written to, the export format, and the audio that was exported. -/
structure ExportedFile where
  path : String
  format : String
  audio : AudioSegment
deriving Repr, DecidableEq

/-- app.py lines 19-24, `process_audio`: load the uploaded file, set the
frame rate to 16000 and the channel count to 1, export as WAV to a fresh
temporary file, and return that file's name.  The temporary file's name
is a parameter (chosen by `tempfile.NamedTemporaryFile`); the function
returns the pair (file written, value returned). -/
def process_audio (tmpName : String) (uploaded : AudioSegment) :
    ExportedFile × String :=
  let audio := (uploaded.set_frame_rate 16000).set_channels 1
  let written : ExportedFile := { path := tmpName, format := "wav", audio := audio }
  (written, tmpName)

/-- The argument pair of the `pipeline(...)` call in `load_emotion_model`
(app.py lines 11-16). -/
structure PipelineConfig where
  task : String
  model : String
deriving Repr, DecidableEq

/-- app.py lines 12-16: the cached pretrained pipeline handle. -/
def load_emotion_model : PipelineConfig :=
  { task := "audio-classification"
  , model := "ehcalabres/wav2vec2-lg-xlsr-en-speech-emotion-recognition" }

/-- Python's banker's rounding of a rational to the nearest integer, as
used by float formatting with zero decimal places. -/
def roundHalfEven (q : ℚ) : Int :=
  let f : Int := ⌊q⌋
  let frac : ℚ := q - f
  if frac < 1 / 2 then f
  else if 1 / 2 < frac then f + 1
  else if f % 2 = 0 then f else f + 1

/-- Python f-string `f"{x:.0%}"` (app.py line 63): multiply by 100, round
to zero decimal places, append a percent sign. -/
def formatPercent (x : ℚ) : String :=
  toString (roundHalfEven (x * 100)) ++ "%"

/-- The result dict built at app.py lines 60-65 from the top-ranked
prediction `preds[0]` and the uploaded file's name. -/
def mkResult (fileName : String) (p : Pred) : ResultRec :=
  { file := fileName
  , emotion := p.label
  , confidence := formatPercent p.score
  , score := p.score }

/-- The message the analyze branch ends with: `st.success(...)` on
line 67 or `st.error(...)` on line 70. -/
inductive Message where
  | success (s : String)
  | error (s : String)
deriving Repr, DecidableEq

/-- app.py lines 58-70: the try/except body run on an "Analyze Emotion"
click.  `outcome` is what `emotion_classifier(processed_path)` does:
return a list of predictions or raise.  `preds[0]` on an empty list
raises IndexError, which the same `except` catches.  On success the
result dict is appended to `st.session_state.results`; on any exception
the list is untouched and `st.error` is shown. -/
def analyzeClick (results : List ResultRec) (fileName : String)
    (outcome : Except String (List Pred)) : List ResultRec × Message :=
  match outcome with
  | Except.error e => (results, Message.error ("Error: " ++ e))
  | Except.ok preds =>
    match preds with
    | [] => (results, Message.error ("Error: " ++ "list index out of range"))
    | p :: _ => (results ++ [mkResult fileName p], Message.success "Analysis complete!")

/-- app.py lines 46-47: `st.session_state.results = []` when the key is
absent (a fresh session); an existing list is kept as is. -/
def ensureResults (state : Option (List ResultRec)) : List ResultRec :=
  match state with
  | none => []
  | some rs => rs

/-- The value `st.session_state.results` starts from in a fresh session. -/
def initResults : List ResultRec := []

/-- One Streamlit rerun of `main`, as far as `st.session_state.results`
is concerned: an "Analyze Emotion" click with the classifier's outcome,
or any other interaction (upload, viewing, export), which never touches
the list. -/
inductive Event where
  | analyze (fileName : String) (outcome : Except String (List Pred))
  | rerun
deriving Repr

/-- Effect of one event on `st.session_state.results`. -/
def stepEvent (results : List ResultRec) : Event → List ResultRec
  | Event.analyze fn outcome => (analyzeClick results fn outcome).1
  | Event.rerun => results

/-- `st.session_state.results` after a session's events, starting from
the fresh-session value. -/
def runSession (events : List Event) : List ResultRec :=
  events.foldl stepEvent initResults

/-- Python list subscription with a possibly negative index:
`l[-1]` is the last element. -/
def pyGet {α : Type} (l : List α) (i : Int) : Option α :=
  if i < 0 then l[((l.length : Int) + i).toNat]?
  else l[i.toNat]?

/-- app.py lines 85-90, the "Current Results" panel rendered from
`latest = st.session_state.results[-1]`: the emotion uppercased and the
formatted confidence string. -/
def currentPanel (r : ResultRec) : String × String :=
  (r.emotion.toUpper, r.confidence)

/-- pandas column access on a `ResultRec` row, by column name. -/
def colValue (r : ResultRec) : String → Option String
  | "file" => some r.file
  | "emotion" => some r.emotion
  | "confidence" => some r.confidence
  | "score" => some (toString r.score)
  | _ => none

/-- The columns of `history_df = pd.DataFrame(st.session_state.results)`
(app.py line 104): the result dict's keys in insertion order. -/
def dfColumns : List String := ["file", "emotion", "confidence", "score"]

/-- The column selection `history_df[['file', 'emotion', 'confidence']]`
at app.py line 106. -/
def historyColumns : List String := ["file", "emotion", "confidence"]

/-- Insert an indexed row into a list sorted by descending index. -/
def insertDescend {α : Type} (x : Nat × α) : List (Nat × α) → List (Nat × α)
  | [] => [x]
  | y :: ys => if y.1 ≤ x.1 then x :: y :: ys else y :: insertDescend x ys

/-- Sort indexed rows by descending index (pandas
`sort_index(ascending=False)`). -/
def sortIndexDescend {α : Type} : List (Nat × α) → List (Nat × α)
  | [] => []
  | x :: xs => insertDescend x (sortIndexDescend xs)

/-- app.py lines 104-109: the on-screen history table.  The DataFrame's
default range index numbers the rows 0, 1, ...; the three columns are
selected and the rows are sorted by descending index. -/
def historyTable (results : List ResultRec) : List (List String) :=
  (sortIndexDescend (results.map fun r => historyColumns.filterMap (colValue r)).enum).map
    (fun x => x.2)

/-- One data row of `history_df.to_csv(index=False)`: every DataFrame
column's value for this record. -/
def csvRow (r : ResultRec) : List String :=
  dfColumns.filterMap (colValue r)

/-- The header row of `history_df.to_csv(index=False)`. -/
def csvHeader : List String := dfColumns

/-- app.py line 112, `history_df.to_csv(index=False)` as structured
rows: the header line followed by one line per record, in the
DataFrame's row order. -/
def toCsv (results : List ResultRec) : List (List String) :=
  csvHeader :: results.map csvRow

/-- pandas QUOTE_MINIMAL field quoting: a field containing a comma,
quote or line break is wrapped in double quotes, embedded quotes
doubled. -/
def csvField (s : String) : String :=
  if s.contains ',' || s.contains '"' || s.contains '\n' || s.contains '\r' then
    "\"" ++ String.join (s.toList.map fun c =>
      if c = '"' then "\"\"" else String.singleton c) ++ "\""
  else s

/-- Render the structured CSV to the downloaded text. -/
def renderCsv (rows : List (List String)) : String :=
  String.join (rows.map fun row =>
    String.intercalate "," (row.map csvField) ++ "\n")

/-- The keyword arguments of the `st.file_uploader` call at app.py
lines 35-37. -/
structure FileUploaderConfig where
  label : String
  type : List String
  accept_multiple_files : Bool
deriving Repr, DecidableEq

/-- app.py lines 35-37: the upload widget's configuration. -/
def uploaderConfig : FileUploaderConfig :=
  { label := "Choose audio file"
  , type := ["wav", "mp3", "m4a", "ogg", "flac"]
  , accept_multiple_files := false }

/-- Whether the uploader accepts a file of the given type/extension. -/
def acceptsFile (ext : String) : Bool :=
  uploaderConfig.type.contains ext

/-! ### Helper lemmas -/

/-- Rounding an integer changes nothing. -/
theorem roundHalfEven_intCast (n : Int) : roundHalfEven (n : ℚ) = n := by
  unfold roundHalfEven
  norm_num

/-- Every member of `enumFrom n l` carries an index of at least `n`. -/
theorem le_fst_of_mem_enumFrom {α : Type} (l : List α) (n : Nat) (y : Nat × α)
    (h : y ∈ l.enumFrom n) : n ≤ y.1 := by
  induction l generalizing n with
  | nil => simp [List.enumFrom] at h
  | cons a as ih =>
    rw [List.enumFrom_cons] at h
    rcases List.mem_cons.mp h with rfl | h
    · exact Nat.le_refl n
    · exact Nat.le_of_succ_le (ih (n + 1) h)

/-- Inserting a row whose index is below every index already present puts
it at the very end. -/
theorem insertDescend_of_forall_lt {α : Type} (x : Nat × α) (l : List (Nat × α))
    (h : ∀ y ∈ l, x.1 < y.1) : insertDescend x l = l ++ [x] := by
  induction l with
  | nil => rfl
  | cons y ys ih =>
    have hy : x.1 < y.1 := h y (List.mem_cons_self y ys)
    rw [insertDescend, if_neg (by omega)]
    rw [ih (fun z hz => h z (List.mem_cons_of_mem y hz))]
    simp

/-- Sorting row indices `n, n+1, ...` in descending order reverses the
rows. -/
theorem sortIndexDescend_enumFrom {α : Type} (l : List α) (n : Nat) :
    sortIndexDescend (l.enumFrom n) = (l.enumFrom n).reverse := by
  induction l generalizing n with
  | nil => rfl
  | cons a as ih =>
    rw [List.enumFrom_cons, sortIndexDescend, ih (n + 1),
      insertDescend_of_forall_lt, List.reverse_cons]
    intro y hy
    have := le_fst_of_mem_enumFrom as (n + 1) y (List.mem_reverse.mp hy)
    omega

/-- `sort_index(ascending=False)` on a default range index reverses the
row order. -/
theorem sortIndexDescend_enum {α : Type} (l : List α) :
    sortIndexDescend l.enum = l.enum.reverse :=
  sortIndexDescend_enumFrom l 0

/-- The history table is the projected rows in reverse order. -/
theorem historyTable_eq_reverse (results : List ResultRec) :
    historyTable results =
      (results.map fun r => historyColumns.filterMap (colValue r)).reverse := by
  unfold historyTable
  rw [sortIndexDescend_enum, List.map_reverse, List.enum_map_snd]

/-- Any record produced by a step is either an old record or built by
`mkResult`. -/
theorem stepEvent_mem_cases (results : List ResultRec) (e : Event) (r : ResultRec)
    (h : r ∈ stepEvent results e) :
    r ∈ results ∨ ∃ fn p, r = mkResult fn p := by
  cases e with
  | rerun => exact Or.inl h
  | analyze fn outcome =>
    cases outcome with
    | error msg => exact Or.inl h
    | ok preds =>
      cases preds with
      | nil => exact Or.inl h
      | cons p ps =>
        have h' : r ∈ results ++ [mkResult fn p] := h
        rcases List.mem_append.mp h' with h'' | h''
        · exact Or.inl h''
        · exact Or.inr ⟨fn, p, List.mem_singleton.mp h''⟩

/-- Any record in the session list after a sequence of events was either
there initially or built by `mkResult`. -/
theorem foldl_stepEvent_mem (events : List Event) (init : List ResultRec)
    (r : ResultRec) (h : r ∈ events.foldl stepEvent init) :
    r ∈ init ∨ ∃ fn p, r = mkResult fn p := by
  induction events generalizing init with
  | nil => exact Or.inl h
  | cons e es ih =>
    rcases ih (stepEvent init e) h with h' | h'
    · exact stepEvent_mem_cases init e r h'
    · exact Or.inr h'

/-- Sample records used by witnesses. -/
def sampleA : ResultRec :=
  { file := "a.wav", emotion := "happy", confidence := "90%", score := 9 / 10 }

/-- Second sample record used by witnesses. -/
def sampleB : ResultRec :=
  { file := "b.wav", emotion := "sad", confidence := "10%", score := 1 / 10 }

/-! ### Claims -/

/-- C1: On a successful analysis run the record stored in the session
results is built from the top-ranked prediction `preds[0]`: its emotion
is exactly that prediction's label and its raw score exactly that
prediction's score; the "Current Results" panel then displays that same,
last-appended record (label uppercased, confidence as formatted). -/
theorem c1_top_prediction_stored_and_displayed
    (results : List ResultRec) (fn : String) (p : Pred) (ps : List Pred) :
    (analyzeClick results fn (Except.ok (p :: ps))).1 = results ++ [mkResult fn p] ∧
    (mkResult fn p).emotion = p.label ∧
    (mkResult fn p).score = p.score ∧
    pyGet (analyzeClick results fn (Except.ok (p :: ps))).1 (-1) = some (mkResult fn p) ∧
    currentPanel (mkResult fn p) = (p.label.toUpper, formatPercent p.score) := by
  refine ⟨rfl, rfl, rfl, ?_, rfl⟩
  show pyGet (results ++ [mkResult fn p]) (-1) = some (mkResult fn p)
  unfold pyGet
  rw [if_pos (by norm_num)]
  have hlen : (((results ++ [mkResult fn p]).length : Int) + (-1)).toNat = results.length := by
    simp
  rw [hlen, List.getElem?_concat_length]

/-- C1 witness. -/
theorem c1_top_prediction_stored_and_displayed_witness :
    (analyzeClick [] "call.wav" (Except.ok [⟨"happy", 9 / 10⟩])).1 =
      [] ++ [mkResult "call.wav" ⟨"happy", 9 / 10⟩] ∧
    (mkResult "call.wav" ⟨"happy", 9 / 10⟩).emotion = Pred.label ⟨"happy", 9 / 10⟩ ∧
    (mkResult "call.wav" ⟨"happy", 9 / 10⟩).score = Pred.score ⟨"happy", 9 / 10⟩ ∧
    pyGet (analyzeClick [] "call.wav" (Except.ok [⟨"happy", 9 / 10⟩])).1 (-1) =
      some (mkResult "call.wav" ⟨"happy", 9 / 10⟩) ∧
    currentPanel (mkResult "call.wav" ⟨"happy", 9 / 10⟩) =
      (String.toUpper (Pred.label ⟨"happy", 9 / 10⟩), formatPercent (Pred.score ⟨"happy", 9 / 10⟩)) :=
  c1_top_prediction_stored_and_displayed [] "call.wav" ⟨"happy", 9 / 10⟩ []

/-- C2: `process_audio` re-encodes the upload to a 16000 Hz frame rate and
a single channel, exports it in WAV format, and returns the path of the
file it wrote. -/
theorem c2_process_audio_reencodes (tmpName : String) (uploaded : AudioSegment) :
    (process_audio tmpName uploaded).1.audio.frame_rate = 16000 ∧
    (process_audio tmpName uploaded).1.audio.channels = 1 ∧
    (process_audio tmpName uploaded).1.format = "wav" ∧
    (process_audio tmpName uploaded).2 = (process_audio tmpName uploaded).1.path :=
  ⟨rfl, rfl, rfl, rfl⟩

/-- C2 witness. -/
theorem c2_process_audio_reencodes_witness :
    (process_audio "tmp.wav" ⟨44100, 2, []⟩).1.audio.frame_rate = 16000 ∧
    (process_audio "tmp.wav" ⟨44100, 2, []⟩).1.audio.channels = 1 ∧
    (process_audio "tmp.wav" ⟨44100, 2, []⟩).1.format = "wav" ∧
    (process_audio "tmp.wav" ⟨44100, 2, []⟩).2 = (process_audio "tmp.wav" ⟨44100, 2, []⟩).1.path :=
  c2_process_audio_reencodes "tmp.wav" ⟨44100, 2, []⟩

/-- C3: One event appends at most one record to the session results: a
successful analysis appends exactly the record built from the file name
and the top prediction (file name, label, formatted confidence, raw
score), every other event leaves the list unchanged, and no event
modifies or removes a previously stored record. -/
theorem c3_results_append_only (results : List ResultRec) (e : Event) :
    (∀ fn p ps, e = Event.analyze fn (Except.ok (p :: ps)) →
      stepEvent results e = results ++ [mkResult fn p]) ∧
    (∀ fn p, (mkResult fn p).file = fn ∧ (mkResult fn p).emotion = p.label ∧
      (mkResult fn p).confidence = formatPercent p.score ∧ (mkResult fn p).score = p.score) ∧
    (stepEvent results e = results ∨ ∃ r, stepEvent results e = results ++ [r]) ∧
    (∀ i : Nat, i < results.length → (stepEvent results e)[i]? = results[i]?) := by
  have hcases : stepEvent results e = results ∨ ∃ r, stepEvent results e = results ++ [r] := by
    cases e with
    | rerun => exact Or.inl rfl
    | analyze fn outcome =>
      cases outcome with
      | error m => exact Or.inl rfl
      | ok preds =>
        cases preds with
        | nil => exact Or.inl rfl
        | cons p ps => exact Or.inr ⟨mkResult fn p, rfl⟩
  refine ⟨?_, fun fn p => ⟨rfl, rfl, rfl, rfl⟩, hcases, ?_⟩
  · rintro fn p ps rfl
    rfl
  · intro i hi
    rcases hcases with h | ⟨r, h⟩
    · rw [h]
    · rw [h, List.getElem?_append_left hi]

/-- C3 witness. -/
theorem c3_results_append_only_witness :
    stepEvent [sampleA] (Event.analyze "call.wav" (Except.ok [⟨"angry", 3 / 4⟩])) =
      [sampleA] ++ [mkResult "call.wav" ⟨"angry", 3 / 4⟩] :=
  (c3_results_append_only [sampleA]
    (Event.analyze "call.wav" (Except.ok [⟨"angry", 3 / 4⟩]))).1
    "call.wav" ⟨"angry", 3 / 4⟩ [] rfl

/-- C4: The exported CSV has one data row per session result, after the
header and in chronological order, and row `i` carries result `i`'s file
name, emotion label and confidence. -/
theorem c4_csv_export_rows (results : List ResultRec) (i : Nat) (h : i < results.length) :
    (toCsv results).length = results.length + 1 ∧
    (toCsv results)[0]? = some csvHeader ∧
    (toCsv results)[i + 1]? = some (csvRow results[i]) ∧
    (csvRow results[i])[0]? = some results[i].file ∧
    (csvRow results[i])[1]? = some results[i].emotion ∧
    (csvRow results[i])[2]? = some results[i].confidence := by
  have hrow : csvRow results[i] =
      [results[i].file, results[i].emotion, results[i].confidence,
        toString results[i].score] := rfl
  refine ⟨by simp [toCsv], by simp [toCsv], ?_, by rw [hrow]; simp, by rw [hrow]; simp,
    by rw [hrow]; simp⟩
  show (csvHeader :: results.map csvRow)[i + 1]? = some (csvRow results[i])
  rw [List.getElem?_cons_succ, List.getElem?_map, List.getElem?_eq_getElem h]
  rfl

/-- C4 witness. -/
theorem c4_csv_export_rows_witness :
    (0 : Nat) < [sampleA].length ∧
    ((toCsv [sampleA]).length = [sampleA].length + 1 ∧
     (toCsv [sampleA])[0]? = some csvHeader ∧
     (toCsv [sampleA])[0 + 1]? = some (csvRow ([sampleA])[0]) ∧
     (csvRow ([sampleA])[0])[0]? = some ([sampleA])[0].file ∧
     (csvRow ([sampleA])[0])[1]? = some ([sampleA])[0].emotion ∧
     (csvRow ([sampleA])[0])[2]? = some ([sampleA])[0].confidence) :=
  ⟨by decide, c4_csv_export_rows [sampleA] 0 (by decide)⟩

/-- C5: If the classifier raises, the analyze run leaves the session
results unchanged and ends with `st.error`, never `st.success`. -/
theorem c5_classifier_error_keeps_results (results : List ResultRec) (fn msg : String) :
    (analyzeClick results fn (Except.error msg)).1 = results ∧
    (analyzeClick results fn (Except.error msg)).2 = Message.error ("Error: " ++ msg) ∧
    ∀ s, (analyzeClick results fn (Except.error msg)).2 ≠ Message.success s :=
  ⟨rfl, rfl, fun _ h => Message.noConfusion h⟩

/-- C5 witness. -/
theorem c5_classifier_error_keeps_results_witness :
    (analyzeClick [sampleA] "call.wav" (Except.error "boom")).1 = [sampleA] ∧
    (analyzeClick [sampleA] "call.wav" (Except.error "boom")).2 =
      Message.error ("Error: " ++ "boom") ∧
    ∀ s, (analyzeClick [sampleA] "call.wav" (Except.error "boom")).2 ≠ Message.success s :=
  c5_classifier_error_keeps_results [sampleA] "call.wav" "boom"

/-- C6: The session results start empty in a fresh session (the key is
initialised to the empty list), and each successful analysis appends its
record at the end, so the list order is the completion order of the
analyses. -/
theorem c6_fresh_session_empty_and_chronological :
    ensureResults none = [] ∧ initResults = [] ∧ runSession [] = [] ∧
    ∀ (events : List Event) (fn : String) (p : Pred) (ps : List Pred),
      runSession (events ++ [Event.analyze fn (Except.ok (p :: ps))]) =
        runSession events ++ [mkResult fn p] := by
  refine ⟨rfl, rfl, rfl, ?_⟩
  intro events fn p ps
  unfold runSession
  rw [List.foldl_append]
  rfl

/-- C6 witness. -/
theorem c6_fresh_session_empty_and_chronological_witness :
    runSession ([] ++ [Event.analyze "call.wav" (Except.ok [⟨"happy", 9 / 10⟩])]) =
      runSession [] ++ [mkResult "call.wav" ⟨"happy", 9 / 10⟩] :=
  c6_fresh_session_empty_and_chronological.2.2.2 [] "call.wav" ⟨"happy", 9 / 10⟩ []

/-- C7: Every record ever stored in the session results has its
confidence field equal to its raw score formatted as a percentage with
zero decimal places, and it retains the raw score of the prediction it
was built from. -/
theorem c7_confidence_is_formatted_score (events : List Event) (r : ResultRec)
    (h : r ∈ runSession events) :
    r.confidence = formatPercent r.score ∧
    ∃ fn p, r = mkResult fn p ∧ r.score = p.score := by
  rcases foldl_stepEvent_mem events initResults r h with h' | ⟨fn, p, rfl⟩
  · simp [initResults] at h'
  · exact ⟨rfl, fn, p, rfl, rfl⟩

/-- C7 witness. -/
theorem c7_confidence_is_formatted_score_witness :
    (mkResult "call.wav" ⟨"happy", 9 / 10⟩ ∈
      runSession [Event.analyze "call.wav" (Except.ok [⟨"happy", 9 / 10⟩])]) ∧
    ((mkResult "call.wav" ⟨"happy", 9 / 10⟩).confidence =
      formatPercent (mkResult "call.wav" ⟨"happy", 9 / 10⟩).score ∧
     ∃ fn p, mkResult "call.wav" ⟨"happy", 9 / 10⟩ = mkResult fn p ∧
       (mkResult "call.wav" ⟨"happy", 9 / 10⟩).score = p.score) := by
  have hm : mkResult "call.wav" ⟨"happy", 9 / 10⟩ ∈
      runSession [Event.analyze "call.wav" (Except.ok [⟨"happy", 9 / 10⟩])] :=
    List.mem_singleton.mpr rfl
  exact ⟨hm, c7_confidence_is_formatted_score _ _ hm⟩

/-- C8: When the session results are non-empty, the "Current Results"
panel is rendered from `results[-1]`, the last (most recent) record, and
the on-screen history table lists all results most recent first. -/
theorem c8_latest_shown_history_reversed (results : List ResultRec) (h : results ≠ []) :
    pyGet results (-1) = some (results.getLast h) ∧
    historyTable results =
      (results.map fun r => historyColumns.filterMap (colValue r)).reverse := by
  refine ⟨?_, historyTable_eq_reverse results⟩
  unfold pyGet
  rw [if_pos (by norm_num)]
  have hn : ((results.length : Int) + (-1)).toNat = results.length - 1 := by
    have : 0 < results.length := List.length_pos.mpr h
    omega
  rw [hn, ← List.getLast?_eq_getElem?, List.getLast?_eq_getLast results h]

/-- C8 witness. -/
theorem c8_latest_shown_history_reversed_witness :
    pyGet [sampleA, sampleB] (-1) =
      some ([sampleA, sampleB].getLast (List.cons_ne_nil _ _)) ∧
    historyTable [sampleA, sampleB] =
      ([sampleA, sampleB].map fun r => historyColumns.filterMap (colValue r)).reverse :=
  c8_latest_shown_history_reversed [sampleA, sampleB] (List.cons_ne_nil _ _)

/-- C9: The exported CSV has a `score` column carrying every result's raw
numeric score, while the on-screen history table selects only the file,
emotion and confidence columns, omitting the raw score. -/
theorem c9_csv_keeps_score_column (results : List ResultRec) (i : Nat)
    (h : i < results.length) :
    "score" ∈ csvHeader ∧
    (csvRow results[i])[3]? = some (toString results[i].score) ∧
    "score" ∉ historyColumns ∧
    ∀ row ∈ historyTable results, ∃ r ∈ results,
      row = [r.file, r.emotion, r.confidence] := by
  refine ⟨by decide, rfl, by decide, ?_⟩
  intro row hrow
  rw [historyTable_eq_reverse, List.mem_reverse] at hrow
  rcases List.mem_map.mp hrow with ⟨r, hr, rfl⟩
  exact ⟨r, hr, rfl⟩

/-- C9 witness. -/
theorem c9_csv_keeps_score_column_witness :
    (0 : Nat) < [sampleA].length ∧
    ("score" ∈ csvHeader ∧
     (csvRow ([sampleA])[0])[3]? = some (toString ([sampleA])[0].score) ∧
     "score" ∉ historyColumns ∧
     ∀ row ∈ historyTable [sampleA], ∃ r ∈ [sampleA],
       row = [r.file, r.emotion, r.confidence]) :=
  ⟨by decide, c9_csv_keeps_score_column [sampleA] 0 (by decide)⟩

/-- C10: The upload widget takes a single file per interaction and is
restricted to the types wav, mp3, m4a, ogg and flac. -/
theorem c10_uploader_single_file_types (ext : String) :
    uploaderConfig.accept_multiple_files = false ∧
    (acceptsFile ext = true ↔
      (ext = "wav" ∨ ext = "mp3" ∨ ext = "m4a" ∨ ext = "ogg" ∨ ext = "flac")) := by
  refine ⟨rfl, ?_⟩
  simp [acceptsFile, uploaderConfig]

/-- C10 witness. -/
theorem c10_uploader_single_file_types_witness :
    uploaderConfig.accept_multiple_files = false ∧
    (acceptsFile "wav" = true ↔
      ("wav" = "wav" ∨ "wav" = "mp3" ∨ "wav" = "m4a" ∨ "wav" = "ogg" ∨ "wav" = "flac")) :=
  c10_uploader_single_file_types "wav"

end VoiceEmotionApp
